import Mathlib

/-!
Verification of the market-data streaming engine (`rust-market-data-stream`).

The Rust source is shallowly embedded:
* `f64` prices, quantities and volumes become exact rationals (`ℚ`); the
  constants `f64::MIN` / `f64::MAX` become their exact rational values.
  Rational division by zero yields `0` in Lean (where the Rust float would
  produce `inf`/`NaN`); every theorem below whose meaning depends on a
  division either proves the divisor nonzero or exhibits a divergence that
  holds under both readings.
* the `u64` trade counter is a `Nat` updated modulo `2 ^ 64` (Rust release
  builds wrap).
* `chrono::DateTime<Utc>` timestamps are carried as opaque strings (their
  RFC 3339 wire text); no claim depends on their internal structure.
* the async client (`client/mod.rs`) becomes a pure state-transition
  function: the outcome of the upstream `connect_async` and of the
  subscription send are parameters of the step, and the step reports the
  number of connection attempts and the control messages handed to the
  socket.
-/

/-- `chrono::DateTime<Utc>`, carried as its RFC 3339 wire text. -/
abbrev Timestamp := String

/-- `TradeSide` from `src/types.rs`. -/
inductive TradeSide where
  | Buy : TradeSide
  | Sell : TradeSide
deriving DecidableEq, Repr

/-- `Trade` from `src/types.rs` (prices and quantities as exact rationals). -/
structure Trade where
  symbol : String
  price : ℚ
  quantity : ℚ
  side : TradeSide
  timestamp : Timestamp
  trade_id : String
deriving DecidableEq, Repr

/-- `Quote` from `src/types.rs`. -/
structure Quote where
  symbol : String
  bid_price : ℚ
  bid_size : ℚ
  ask_price : ℚ
  ask_size : ℚ
  timestamp : Timestamp
deriving DecidableEq, Repr

/-- `PriceLevel` from `src/types.rs` (`num_orders` is a `u32`). -/
structure PriceLevel where
  price : ℚ
  size : ℚ
  num_orders : Nat
deriving DecidableEq, Repr

/-- `OrderBookSnapshot` from `src/types.rs`. -/
structure OrderBookSnapshot where
  symbol : String
  bids : List PriceLevel
  asks : List PriceLevel
  timestamp : Timestamp
deriving DecidableEq, Repr

/-- `MarketDataMessage` from `src/types.rs`: the tagged union over
trade, quote, order-book snapshot and heartbeat. -/
inductive MarketDataMessage where
  | Trade (t : Trade) : MarketDataMessage
  | Quote (q : Quote) : MarketDataMessage
  | OrderBook (o : OrderBookSnapshot) : MarketDataMessage
  | Heartbeat : MarketDataMessage
deriving DecidableEq, Repr

/-- The exact rational value of Rust's `f64::MIN`,
`-(2 - 2 ^ (-52)) * 2 ^ 1023 = -(2 ^ 1024 - 2 ^ 971)`: the smallest
finite `f64`, used by `MarketStats::new` as the "no trades yet"
sentinel for `high`. -/
def f64MIN : ℚ := -(2 ^ 1024 - 2 ^ 971)

/-- The exact rational value of Rust's `f64::MAX`, `2 ^ 1024 - 2 ^ 971`:
the largest finite `f64`, used by `MarketStats::new` as the sentinel for
`low`. -/
def f64MAX : ℚ := 2 ^ 1024 - 2 ^ 971

/-- `MarketStats` from `src/types.rs`. -/
structure MarketStats where
  symbol : String
  trade_count : Nat
  total_volume : ℚ
  vwap : ℚ
  high : ℚ
  low : ℚ
  last_price : ℚ
  last_update : Option Timestamp
deriving DecidableEq, Repr

/-- `MarketStats::new` from `src/types.rs`. -/
def MarketStats.new (symbol : String) : MarketStats :=
  { symbol := symbol
    trade_count := 0
    total_volume := 0
    vwap := 0
    high := f64MIN
    low := f64MAX
    last_price := 0
    last_update := none }

/-- `MarketStats::update_with_trade` from `src/types.rs`, step by step:
the counter increment (`u64`, hence mod `2 ^ 64`), the volume update, the
incremental VWAP recomputation dividing by the post-update volume, the
high/low comparisons, and the last-price/last-update writes. -/
def MarketStats.update_with_trade (s : MarketStats) (trade : Trade) : MarketStats :=
  let trade_count := (s.trade_count + 1) % 2 ^ 64
  let total_volume := s.total_volume + trade.quantity
  let prev_total := s.vwap * (total_volume - trade.quantity)
  let new_total := prev_total + trade.price * trade.quantity
  let vwap := new_total / total_volume
  let high := if trade.price > s.high then trade.price else s.high
  let low := if trade.price < s.low then trade.price else s.low
  { symbol := s.symbol
    trade_count := trade_count
    total_volume := total_volume
    vwap := vwap
    high := high
    low := low
    last_price := trade.price
    last_update := some trade.timestamp }

/-- Apply a sequence of trades in order (the aggregator's behaviour over a
whole session). -/
def applyTrades (s : MarketStats) (ts : List Trade) : MarketStats :=
  ts.foldl MarketStats.update_with_trade s

/-- Sum of the quantities of a trade sequence. -/
def sumQ (ts : List Trade) : ℚ :=
  (ts.map Trade.quantity).sum

/-- Sum of price × quantity over a trade sequence. -/
def sumPQ (ts : List Trade) : ℚ :=
  (ts.map (fun t => t.price * t.quantity)).sum

/-- The divisor of the VWAP division in `update_with_trade`: the
post-update `total_volume`. -/
def vwapDivisor (s : MarketStats) (trade : Trade) : ℚ :=
  s.total_volume + trade.quantity

/-!
## Wire format and decoder

`serde_json` values are modelled by a small JSON syntax tree; the
`serde`-derived deserializer for the internally tagged union
(`#[serde(tag = "type")]` on `MarketDataMessage` in `src/types.rs`) is
modelled following that declaration: the `type` field selects the variant
by its declared name, the variant's fields are read from the same object,
and any other discriminator is an error.  Per the spec (§4.1) fields are
validated for structural presence only; `chrono`'s textual timestamp
validation is an external crate and is not modelled. -/

/-- A `serde_json::Value`: the decoder's input after the (external) JSON
text layer. -/
inductive Json where
  | null : Json
  | bool (b : Bool) : Json
  | num (q : ℚ) : Json
  | str (s : String) : Json
  | arr (elems : List Json) : Json
  | obj (fields : List (String × Json)) : Json

/-- Look up a field of a JSON object (none on a non-object or a missing
field). -/
def Json.getField : Json → String → Option Json
  | .obj fields, key => fields.lookup key
  | _, _ => none

/-- Read a JSON string. -/
def Json.asStr : Json → Option String
  | .str s => some s
  | _ => none

/-- Read a JSON number as an `f64` (any numeric value). -/
def Json.asNum : Json → Option ℚ
  | .num q => some q
  | _ => none

/-- Read a JSON number as a `u32` (`num_orders`): a nonnegative integer
below `2 ^ 32`. -/
def Json.asU32 : Json → Option Nat
  | .num q => if q.den = 1 ∧ 0 ≤ q.num ∧ q.num < 2 ^ 32 then some q.num.toNat else none
  | _ => none

/-- `TradeSide`'s derived deserializer: the variant name as a string. -/
def decodeSide : Json → Option TradeSide
  | .str "Buy" => some .Buy
  | .str "Sell" => some .Sell
  | _ => none

/-- Timestamps: `chrono` deserializes `DateTime<Utc>` from a string; the
string is carried opaquely (format validation is the external crate's
concern, out of scope per spec §1). -/
def decodeTimestamp (j : Json) : Option Timestamp :=
  j.asStr

/-- The derived deserializer of `Trade`: every declared field must be
structurally present. -/
def decodeTrade (j : Json) : Option Trade := do
  let symbol ← (← j.getField "symbol").asStr
  let price ← (← j.getField "price").asNum
  let quantity ← (← j.getField "quantity").asNum
  let side ← decodeSide (← j.getField "side")
  let timestamp ← decodeTimestamp (← j.getField "timestamp")
  let trade_id ← (← j.getField "trade_id").asStr
  pure { symbol, price, quantity, side, timestamp, trade_id }

/-- The derived deserializer of `Quote`. -/
def decodeQuote (j : Json) : Option Quote := do
  let symbol ← (← j.getField "symbol").asStr
  let bid_price ← (← j.getField "bid_price").asNum
  let bid_size ← (← j.getField "bid_size").asNum
  let ask_price ← (← j.getField "ask_price").asNum
  let ask_size ← (← j.getField "ask_size").asNum
  let timestamp ← decodeTimestamp (← j.getField "timestamp")
  pure { symbol, bid_price, bid_size, ask_price, ask_size, timestamp }

/-- The derived deserializer of `PriceLevel`. -/
def decodePriceLevel (j : Json) : Option PriceLevel := do
  let price ← (← j.getField "price").asNum
  let size ← (← j.getField "size").asNum
  let num_orders ← (← j.getField "num_orders").asU32
  pure { price, size, num_orders }

/-- The derived deserializer of a JSON array of `PriceLevel`s. -/
def decodeLevels (j : Json) : Option (List PriceLevel) :=
  match j with
  | .arr elems => elems.mapM decodePriceLevel
  | _ => none

/-- The derived deserializer of `OrderBookSnapshot`. -/
def decodeOrderBook (j : Json) : Option OrderBookSnapshot := do
  let symbol ← (← j.getField "symbol").asStr
  let bids ← decodeLevels (← j.getField "bids")
  let asks ← decodeLevels (← j.getField "asks")
  let timestamp ← decodeTimestamp (← j.getField "timestamp")
  pure { symbol, bids, asks, timestamp }

/-- The internally tagged deserializer of `MarketDataMessage`
(`#[serde(tag = "type")]`, `src/types.rs` lines 5–12): the `type` field
selects the variant by its declared name; a missing, non-string or
unknown discriminator is an error, as is a variant whose fields fail to
decode. -/
def decodeMessage (payload : Json) : Except String MarketDataMessage :=
  match payload.getField "type" with
  | none => .error "missing type discriminator"
  | some tag =>
    match tag.asStr with
    | none => .error "non-string type discriminator"
    | some "Trade" =>
      match decodeTrade payload with
      | some t => .ok (.Trade t)
      | none => .error "invalid Trade payload"
    | some "Quote" =>
      match decodeQuote payload with
      | some q => .ok (.Quote q)
      | none => .error "invalid Quote payload"
    | some "OrderBook" =>
      match decodeOrderBook payload with
      | some o => .ok (.OrderBook o)
      | none => .error "invalid OrderBook payload"
    | some "Heartbeat" => .ok .Heartbeat
    | some other => .error ("unknown variant " ++ other)

/-!
## Read loop

The spawned read loop (`src/client/mod.rs` lines 80–118), per frame:
a text frame is decoded; on success the message is broadcast, on failure
a warning is logged and the loop continues; a ping is ignored (the
protocol layer answers it); a close frame, a transport error or the end
of the stream exits the loop.  `processFrames` returns the messages
broadcast for a given incoming frame sequence. -/

/-- An incoming WebSocket frame, as matched by the read loop. -/
inductive Frame where
  | text (payload : Json) : Frame
  | ping : Frame
  | close : Frame
  | transportError (e : String) : Frame

/-- The read loop of `MarketDataClient::start`: the list of messages
broadcast to subscribers for a sequence of incoming frames. -/
def processFrames : List Frame → List MarketDataMessage
  | [] => []
  | .text payload :: rest =>
    match decodeMessage payload with
    | .ok msg => msg :: processFrames rest
    | .error _ => processFrames rest
  | .ping :: rest => processFrames rest
  | .close :: _ => []
  | .transportError _ :: _ => []

/-!
## Client lifecycle

`MarketDataClient` (`src/client/mod.rs`): the `running` flag is the
lifecycle state; `start` is embedded as a pure step whose environment
says whether `connect_async` and the subscription send succeed, and whose
output records the post-call state, the returned `Result`, how many
connection attempts were made and which control messages were handed to
the socket. -/

/-- `ClientError` from `src/client/mod.rs`. -/
inductive ClientError where
  | webSocket (msg : String) : ClientError
  | connection (msg : String) : ClientError
  | parse (msg : String) : ClientError
deriving DecidableEq, Repr

/-- `MarketDataClient`: construction parameters and the `running` flag
(the only lifecycle state). -/
structure MarketDataClient where
  url : String
  buffer_size : Nat
  running : Bool
deriving DecidableEq, Repr

/-- `MarketDataClient::new`: the public constructor takes a URL and a
broadcast buffer capacity, nothing else, and starts not running. -/
def MarketDataClient.new (url : String) (buffer_size : Nat) : MarketDataClient :=
  { url := url, buffer_size := buffer_size, running := false }

/-- `MarketDataClient::is_running`. -/
def MarketDataClient.is_running (c : MarketDataClient) : Bool :=
  c.running

/-- `MarketDataClient::stop`: sets the running flag to false. -/
def MarketDataClient.stop (c : MarketDataClient) : MarketDataClient :=
  { c with running := false }

/-- The subscription control message built by `start`
(`src/client/mod.rs` lines 69–72): a hardcoded `serde_json::json!`
literal. -/
def subscribeMessage : Json :=
  .obj [("type", .str "subscribe"),
        ("channels", .arr [.str "trades", .str "quotes", .str "orderbook"])]

/-- Outcomes of the two fallible awaited calls inside `start`:
`connect_async` and the subscription `send` (some error text on
failure). -/
structure StartEnv where
  connectFailure : Option String
  sendFailure : Option String

/-- What one call to `start` did: the client state after the call, the
returned `Result`, the number of upstream connection attempts, and the
control messages handed to the socket. -/
structure StartOutput where
  client : MarketDataClient
  result : Except ClientError Unit
  connectAttempts : Nat
  sent : List Json

/-- `MarketDataClient::start` (`src/client/mod.rs` lines 47–121), in
source order: if `running` is already set, warn and return `Ok` with no
connection attempt; otherwise set `running := true`, then attempt the
connection (failure maps to `ClientError::Connection` and returns, the
flag left set), then send the subscription message (failure maps to
`ClientError::WebSocket`), then spawn the read loop and return `Ok`. -/
def MarketDataClient.start (c : MarketDataClient) (env : StartEnv) : StartOutput :=
  if c.running then
    { client := c, result := .ok (), connectAttempts := 0, sent := [] }
  else
    let c1 : MarketDataClient := { c with running := true }
    match env.connectFailure with
    | some e =>
      { client := c1, result := .error (.connection e), connectAttempts := 1, sent := [] }
    | none =>
      match env.sendFailure with
      | some e =>
        { client := c1, result := .error (.webSocket e), connectAttempts := 1,
          sent := [subscribeMessage] }
      | none =>
        { client := c1, result := .ok (), connectAttempts := 1,
          sent := [subscribeMessage] }

/-!
## Basic lemmas about the aggregator
-/

/-- `update_with_trade` adds the trade's quantity to `total_volume`. -/
theorem update_total_volume (s : MarketStats) (t : Trade) :
    (s.update_with_trade t).total_volume = s.total_volume + t.quantity := rfl

/-- `update_with_trade` keeps the symbol. -/
theorem update_symbol (s : MarketStats) (t : Trade) :
    (s.update_with_trade t).symbol = s.symbol := rfl

/-- The counter update, as written in the source. -/
theorem update_trade_count (s : MarketStats) (t : Trade) :
    (s.update_with_trade t).trade_count = (s.trade_count + 1) % 2 ^ 64 := rfl

/-- The high update is a binary max. -/
theorem update_high (s : MarketStats) (t : Trade) :
    (s.update_with_trade t).high = max s.high t.price := by
  show (if t.price > s.high then t.price else s.high) = max s.high t.price
  rcases le_or_lt t.price s.high with h | h
  · rw [if_neg (not_lt.mpr h), max_eq_left h]
  · rw [if_pos h, max_eq_right h.le]

/-- The low update is a binary min. -/
theorem update_low (s : MarketStats) (t : Trade) :
    (s.update_with_trade t).low = min s.low t.price := by
  show (if t.price < s.low then t.price else s.low) = min s.low t.price
  rcases le_or_lt s.low t.price with h | h
  · rw [if_neg (not_lt.mpr h), min_eq_left h]
  · rw [if_pos h, min_eq_right h.le]

/-- The VWAP update: the source's
`(vwap * (total_volume_new - quantity) + price * quantity) / total_volume_new`
with the pre-update volume recovered by cancellation, and the divisor named. -/
theorem update_vwap (s : MarketStats) (t : Trade) :
    (s.update_with_trade t).vwap
      = (s.vwap * s.total_volume + t.price * t.quantity) / vwapDivisor s t := by
  show (s.vwap * (s.total_volume + t.quantity - t.quantity) + t.price * t.quantity)
        / (s.total_volume + t.quantity)
      = (s.vwap * s.total_volume + t.price * t.quantity) / vwapDivisor s t
  rw [add_sub_cancel_right]
  rfl

theorem applyTrades_nil (s : MarketStats) : applyTrades s [] = s := rfl

theorem applyTrades_cons (s : MarketStats) (t : Trade) (ts : List Trade) :
    applyTrades s (t :: ts) = applyTrades (s.update_with_trade t) ts := rfl

theorem applyTrades_concat (s : MarketStats) (ts : List Trade) (t : Trade) :
    applyTrades s (ts ++ [t]) = (applyTrades s ts).update_with_trade t := by
  unfold applyTrades
  rw [List.foldl_append]
  rfl

theorem sumQ_nil : sumQ [] = 0 := rfl

theorem sumQ_cons (t : Trade) (ts : List Trade) :
    sumQ (t :: ts) = t.quantity + sumQ ts := by
  simp [sumQ]

theorem sumQ_concat (ts : List Trade) (t : Trade) :
    sumQ (ts ++ [t]) = sumQ ts + t.quantity := by
  simp [sumQ]

theorem sumPQ_nil : sumPQ [] = 0 := rfl

theorem sumPQ_concat (ts : List Trade) (t : Trade) :
    sumPQ (ts ++ [t]) = sumPQ ts + t.price * t.quantity := by
  simp [sumPQ]

/-- The cumulative volume after a trade sequence. -/
theorem applyTrades_total_volume (s : MarketStats) (ts : List Trade) :
    (applyTrades s ts).total_volume = s.total_volume + sumQ ts := by
  induction ts generalizing s with
  | nil => simp [applyTrades_nil, sumQ_nil]
  | cons t ts ih =>
    rw [applyTrades_cons, ih, update_total_volume, sumQ_cons]
    ring

/-- The symbol after a trade sequence. -/
theorem applyTrades_symbol (s : MarketStats) (ts : List Trade) :
    (applyTrades s ts).symbol = s.symbol := by
  induction ts generalizing s with
  | nil => rfl
  | cons t ts ih => rw [applyTrades_cons, ih, update_symbol]

/-- The running high is the max-fold of the prices over the initial high. -/
theorem applyTrades_high (s : MarketStats) (ts : List Trade) :
    (applyTrades s ts).high = (ts.map Trade.price).foldl max s.high := by
  induction ts generalizing s with
  | nil => rfl
  | cons t ts ih =>
    rw [applyTrades_cons, ih, update_high, List.map_cons, List.foldl_cons]

/-- The running low is the min-fold of the prices over the initial low. -/
theorem applyTrades_low (s : MarketStats) (ts : List Trade) :
    (applyTrades s ts).low = (ts.map Trade.price).foldl min s.low := by
  induction ts generalizing s with
  | nil => rfl
  | cons t ts ih =>
    rw [applyTrades_cons, ih, update_low, List.map_cons, List.foldl_cons]

theorem vwapDivisor_def (s : MarketStats) (t : Trade) :
    vwapDivisor s t = s.total_volume + t.quantity := rfl

/-- The spec's `BTCUSD` scenario trades: (price 50000, qty 1.0) and
(price 50100, qty 0.5). -/
def btcTrade1 : Trade :=
  { symbol := "BTCUSD", price := 50000, quantity := 1, side := .Buy,
    timestamp := "t1", trade_id := "1" }

def btcTrade2 : Trade :=
  { symbol := "BTCUSD", price := 50100, quantity := 1/2, side := .Sell,
    timestamp := "t2", trade_id := "2" }

/-- C1 (amended): applying a finite trade sequence to `MarketStats::new`
via `update_with_trade` yields `vwap = Σ(price×quantity)/Σ(quantity)`
(exact arithmetic), provided every nonempty prefix of the sequence has
nonzero quantity sum — the nonzero total demanded by the claim as stated
does not suffice, because an intermediate prefix of volume zero makes the
incremental recurrence divide by zero and lose the accumulated
numerator (`C1_counterexample`). -/
theorem C1_vwap_closed_form (sym : String) (ts : List Trade)
    (h : ∀ n, 0 < n → n ≤ ts.length → sumQ (ts.take n) ≠ 0) :
    (applyTrades (MarketStats.new sym) ts).vwap = sumPQ ts / sumQ ts := by
  induction ts using List.reverseRecOn with
  | nil =>
    show (0 : ℚ) = sumPQ [] / sumQ []
    rw [sumPQ_nil, sumQ_nil]
    norm_num
  | append_singleton ts t ih =>
    have hts : ∀ n, 0 < n → n ≤ ts.length → sumQ (ts.take n) ≠ 0 := by
      intro n hn hle
      have hle2 : n ≤ (ts ++ [t]).length := by
        rw [List.length_append]
        omega
      have hx := h n hn hle2
      rwa [List.take_append_of_le_length hle] at hx
    have hvol : (applyTrades (MarketStats.new sym) ts).total_volume = sumQ ts := by
      rw [applyTrades_total_volume]
      show (0 : ℚ) + sumQ ts = sumQ ts
      ring
    have hnum : (applyTrades (MarketStats.new sym) ts).vwap
        * (applyTrades (MarketStats.new sym) ts).total_volume = sumPQ ts := by
      rcases eq_or_ne ts [] with rfl | hne
      · show (0 : ℚ) * (0 : ℚ) = sumPQ []
        rw [sumPQ_nil]
        ring
      · have hV : sumQ ts ≠ 0 := by
          have hlen : 0 < ts.length := List.length_pos.mpr hne
          have hx := h ts.length hlen (by rw [List.length_append]; omega)
          rwa [List.take_append_of_le_length le_rfl, List.take_length ts] at hx
        rw [ih hts, hvol, div_mul_cancel₀ _ hV]
    rw [applyTrades_concat, update_vwap, hnum, vwapDivisor_def, hvol,
      sumPQ_concat, sumQ_concat]

/-- The trades refuting C1 as stated: quantities 1, −1, 1 sum to 1
(nonzero), but after the second trade the running volume is 0, where the
recurrence's division by the post-update volume discards the accumulated
price×quantity total (the Rust floats produce `-inf` and then `NaN`
there; exact arithmetic keeps a junk 0 — under both readings the final
VWAP is not the closed-form mean). -/
def ceC1trades : List Trade :=
  [{ symbol := "S", price := 1, quantity := 1, side := .Buy,
     timestamp := "t1", trade_id := "1" },
   { symbol := "S", price := 2, quantity := -1, side := .Sell,
     timestamp := "t2", trade_id := "2" },
   { symbol := "S", price := 3, quantity := 1, side := .Buy,
     timestamp := "t3", trade_id := "3" }]

/-- C1 as stated is false: `ceC1trades` has nonzero quantity sum, yet the
computed `vwap` (3) differs from the closed-form volume-weighted mean
(2). -/
theorem C1_counterexample :
    sumQ ceC1trades ≠ 0 ∧
    (applyTrades (MarketStats.new "S") ceC1trades).vwap
      ≠ sumPQ ceC1trades / sumQ ceC1trades := by
  constructor
  · norm_num [ceC1trades, sumQ]
  · norm_num [ceC1trades, sumQ, sumPQ, applyTrades, MarketStats.update_with_trade,
      MarketStats.new, List.foldl, div_zero]

/-- C1 witness: the spec's `BTCUSD` scenario satisfies the amended
hypothesis (prefix volumes 1 and 3/2 are nonzero), and the theorem gives
its VWAP as the closed-form mean. -/
theorem C1_witness :
    (∀ n, 0 < n → n ≤ ([btcTrade1, btcTrade2] : List Trade).length →
      sumQ (([btcTrade1, btcTrade2] : List Trade).take n) ≠ 0) ∧
    (applyTrades (MarketStats.new "BTCUSD") [btcTrade1, btcTrade2]).vwap
      = sumPQ [btcTrade1, btcTrade2] / sumQ [btcTrade1, btcTrade2] := by
  have hpre : ∀ n, 0 < n → n ≤ ([btcTrade1, btcTrade2] : List Trade).length →
      sumQ (([btcTrade1, btcTrade2] : List Trade).take n) ≠ 0 := by
    intro n hn hle
    have h2 : n ≤ 2 := by simpa using hle
    interval_cases n
    · norm_num [sumQ, btcTrade1, btcTrade2, List.take]
    · norm_num [sumQ, btcTrade1, btcTrade2, List.take]
  exact ⟨hpre, C1_vwap_closed_form "BTCUSD" [btcTrade1, btcTrade2] hpre⟩

/-- C2 (amended): over any non-empty trade sequence applied to
`MarketStats::new`, `total_volume` is the sum of the quantities and
`high`/`low` are the max/min of the prices, provided every price lies in
the representable band `[f64::MIN, f64::MAX]` — prices outside the
sentinels' band never displace them (`C2_counterexample`); and the spec's
`BTCUSD` scenario comes out as claimed: trade_count 2, total_volume 3/2,
high 50100, low 50000. -/
theorem C2_volume_high_low (sym : String) (t : Trade) (ts : List Trade)
    (h : ∀ u ∈ t :: ts, f64MIN ≤ u.price ∧ u.price ≤ f64MAX) :
    ((applyTrades (MarketStats.new sym) (t :: ts)).total_volume = sumQ (t :: ts) ∧
     (applyTrades (MarketStats.new sym) (t :: ts)).high
       = (ts.map Trade.price).foldl max t.price ∧
     (applyTrades (MarketStats.new sym) (t :: ts)).low
       = (ts.map Trade.price).foldl min t.price) ∧
    ((applyTrades (MarketStats.new "BTCUSD") [btcTrade1, btcTrade2]).trade_count = 2 ∧
     (applyTrades (MarketStats.new "BTCUSD") [btcTrade1, btcTrade2]).total_volume = 3/2 ∧
     (applyTrades (MarketStats.new "BTCUSD") [btcTrade1, btcTrade2]).high = 50100 ∧
     (applyTrades (MarketStats.new "BTCUSD") [btcTrade1, btcTrade2]).low = 50000) := by
  have hmin : f64MIN ≤ t.price := (h t (List.mem_cons_self t ts)).1
  have hmax : t.price ≤ f64MAX := (h t (List.mem_cons_self t ts)).2
  refine ⟨⟨?_, ?_, ?_⟩, ?_⟩
  · rw [applyTrades_total_volume]
    show (0 : ℚ) + sumQ (t :: ts) = sumQ (t :: ts)
    ring
  · rw [applyTrades_high, List.map_cons, List.foldl_cons]
    have hm : max (MarketStats.new sym).high t.price = t.price := by
      show max f64MIN t.price = t.price
      exact max_eq_right hmin
    rw [hm]
  · rw [applyTrades_low, List.map_cons, List.foldl_cons]
    have hm : min (MarketStats.new sym).low t.price = t.price := by
      show min f64MAX t.price = t.price
      exact min_eq_right hmax
    rw [hm]
  · refine ⟨?_, ?_, ?_, ?_⟩ <;>
      norm_num [applyTrades, List.foldl, MarketStats.update_with_trade,
        MarketStats.new, btcTrade1, btcTrade2, f64MIN, f64MAX]

/-- A trade priced below the `f64::MIN` sentinel (as an exact rational;
the Rust float would be `-inf`). -/
def ceC2trade : Trade :=
  { symbol := "S", price := f64MIN - 1, quantity := 1, side := .Buy,
    timestamp := "t", trade_id := "1" }

/-- C2 as stated is false at a price below the sentinel: after the single
trade `ceC2trade`, `high` is still the sentinel `f64::MIN`, not the
maximum of the observed prices (which for the singleton sequence is the
trade's own price, `f64::MIN − 1`). -/
theorem C2_counterexample :
    (applyTrades (MarketStats.new "S") [ceC2trade]).high = f64MIN ∧
    f64MIN ≠ (([] : List Trade).map Trade.price).foldl max ceC2trade.price := by
  constructor
  · norm_num [applyTrades, List.foldl, MarketStats.update_with_trade,
      MarketStats.new, ceC2trade, f64MIN]
  · norm_num [ceC2trade, f64MIN]

/-- C2 witness: the `BTCUSD` scenario's prices are representable, so
the theorem applies to it. -/
theorem C2_witness :
    (∀ u ∈ btcTrade1 :: [btcTrade2], f64MIN ≤ u.price ∧ u.price ≤ f64MAX) ∧
    (((applyTrades (MarketStats.new "BTCUSD") (btcTrade1 :: [btcTrade2])).total_volume
        = sumQ (btcTrade1 :: [btcTrade2]) ∧
      (applyTrades (MarketStats.new "BTCUSD") (btcTrade1 :: [btcTrade2])).high
        = ([btcTrade2].map Trade.price).foldl max btcTrade1.price ∧
      (applyTrades (MarketStats.new "BTCUSD") (btcTrade1 :: [btcTrade2])).low
        = ([btcTrade2].map Trade.price).foldl min btcTrade1.price) ∧
     ((applyTrades (MarketStats.new "BTCUSD") [btcTrade1, btcTrade2]).trade_count = 2 ∧
      (applyTrades (MarketStats.new "BTCUSD") [btcTrade1, btcTrade2]).total_volume = 3/2 ∧
      (applyTrades (MarketStats.new "BTCUSD") [btcTrade1, btcTrade2]).high = 50100 ∧
      (applyTrades (MarketStats.new "BTCUSD") [btcTrade1, btcTrade2]).low = 50000)) := by
  have hp : ∀ u ∈ btcTrade1 :: [btcTrade2], f64MIN ≤ u.price ∧ u.price ≤ f64MAX := by
    intro u hu
    rcases List.mem_cons.mp hu with rfl | hu
    · constructor <;> norm_num [btcTrade1, f64MIN, f64MAX]
    rcases List.mem_cons.mp hu with rfl | hu
    · constructor <;> norm_num [btcTrade2, f64MIN, f64MAX]
    exact absurd hu (List.not_mem_nil u)
  exact ⟨hp, C2_volume_high_low "BTCUSD" btcTrade1 [btcTrade2] hp⟩

/-- C4 (amended): `update_with_trade` never decreases `trade_count` as
long as the `u64` counter is not at its maximum (where the wrapping
increment returns to 0), and never decreases `total_volume` as long as
the trade's quantity is nonnegative — with no precondition at all both
monotonicity statements fail (`C4_counterexample`). -/
theorem C4_monotonicity (s : MarketStats) (t : Trade) :
    (s.trade_count < 2 ^ 64 - 1 → s.trade_count ≤ (s.update_with_trade t).trade_count) ∧
    (0 ≤ t.quantity → s.total_volume ≤ (s.update_with_trade t).total_volume) := by
  constructor
  · intro h
    rw [update_trade_count, Nat.mod_eq_of_lt (by omega)]
    omega
  · intro h
    rw [update_total_volume]
    linarith

/-- The stats record and trade refuting C4 as stated: a counter at
`u64::MAX` (reachable only after `2^64 − 1` updates, but the claim
quantifies over every `MarketStats` value) and a trade of quantity −1
(the decoder accepts negative quantities). -/
def ceC4stats : MarketStats :=
  { MarketStats.new "S" with trade_count := 2 ^ 64 - 1 }

def ceC4trade : Trade :=
  { symbol := "S", price := 10, quantity := -1, side := .Sell,
    timestamp := "t", trade_id := "1" }

/-- C4 as stated is false: at `ceC4stats`/`ceC4trade` one update strictly
decreases both `trade_count` (u64 wrap to 0) and `total_volume` (negative
quantity). -/
theorem C4_counterexample :
    (ceC4stats.update_with_trade ceC4trade).trade_count < ceC4stats.trade_count ∧
    (ceC4stats.update_with_trade ceC4trade).total_volume < ceC4stats.total_volume := by
  constructor
  · rw [update_trade_count]
    norm_num [ceC4stats, MarketStats.new]
  · rw [update_total_volume]
    norm_num [ceC4stats, ceC4trade, MarketStats.new]

/-- C4 witness: at a fresh record and a unit-quantity trade both
hypotheses hold and both fields do not decrease. -/
theorem C4_witness :
    ((MarketStats.new "S").trade_count < 2 ^ 64 - 1 →
      (MarketStats.new "S").trade_count
        ≤ ((MarketStats.new "S").update_with_trade btcTrade1).trade_count) ∧
    (0 ≤ btcTrade1.quantity →
      (MarketStats.new "S").total_volume
        ≤ ((MarketStats.new "S").update_with_trade btcTrade1).total_volume) :=
  C4_monotonicity (MarketStats.new "S") btcTrade1

/-- C5: a newly created `MarketStats` has `trade_count = 0`,
`total_volume = 0`, `high` at the negative sentinel `f64::MIN`, `low`
at the positive sentinel `f64::MAX`, and `last_update = None` (the spec
names the sentinels "negative/positive infinity"; the code uses the
extreme finite `f64` values as those sentinels). -/
theorem C5_new_initial_state (sym : String) :
    (MarketStats.new sym).trade_count = 0 ∧
    (MarketStats.new sym).total_volume = 0 ∧
    (MarketStats.new sym).high = f64MIN ∧
    (MarketStats.new sym).low = f64MAX ∧
    (MarketStats.new sym).last_update = none :=
  ⟨rfl, rfl, rfl, rfl, rfl⟩

/-- C9: the VWAP division in `update_with_trade` divides, unguarded, by
the post-update `total_volume` (`vwapDivisor`); if every trade applied so
far and the incoming one have strictly positive quantity the divisor is
nonzero, while a first trade of quantity 0 makes it exactly 0. -/
theorem C9_divisor (sym : String) (ts : List Trade) (t t0 : Trade) :
    (∀ s : MarketStats, ∀ u : Trade,
      (s.update_with_trade u).vwap
        = (s.vwap * s.total_volume + u.price * u.quantity) / vwapDivisor s u) ∧
    ((∀ u ∈ ts, 0 < u.quantity) → 0 < t.quantity →
      vwapDivisor (applyTrades (MarketStats.new sym) ts) t ≠ 0) ∧
    (t0.quantity = 0 → vwapDivisor (MarketStats.new sym) t0 = 0) := by
  refine ⟨update_vwap, ?_, ?_⟩
  · intro hts ht
    rw [vwapDivisor_def, applyTrades_total_volume]
    have hsum : 0 ≤ sumQ ts := by
      refine List.sum_nonneg ?_
      intro x hx
      rcases List.mem_map.mp hx with ⟨u, hu, rfl⟩
      exact (hts u hu).le
    have : (MarketStats.new sym).total_volume = 0 := rfl
    rw [this]
    positivity
  · intro h0
    rw [vwapDivisor_def, h0]
    show (0 : ℚ) + 0 = 0
    ring

/-- C9 witness: after one unit-quantity trade the divisor for a second
positive trade is nonzero, and a first zero-quantity trade yields
divisor 0. -/
theorem C9_witness :
    vwapDivisor (applyTrades (MarketStats.new "S") [btcTrade1]) btcTrade2 ≠ 0 ∧
    vwapDivisor (MarketStats.new "S")
      { symbol := "S", price := 5, quantity := 0, side := .Buy,
        timestamp := "t", trade_id := "0" } = 0 := by
  constructor
  · exact (C9_divisor "S" [btcTrade1] btcTrade2
      { symbol := "S", price := 5, quantity := 0, side := .Buy,
        timestamp := "t", trade_id := "0" }).2.1
      (by
        intro u hu
        rcases List.mem_cons.mp hu with rfl | hu
        · norm_num [btcTrade1]
        · exact absurd hu (List.not_mem_nil u))
      (by norm_num [btcTrade2])
  · exact (C9_divisor "S" [btcTrade1] btcTrade2
      { symbol := "S", price := 5, quantity := 0, side := .Buy,
        timestamp := "t", trade_id := "0" }).2.2 rfl

/-- C10: `update_with_trade` never changes the `symbol` field — for any
stats record and any trade, matching symbol or not; all other fields are
the only ones written. -/
theorem C10_symbol_unchanged (s : MarketStats) (t : Trade) :
    (s.update_with_trade t).symbol = s.symbol :=
  rfl

/-- The spec's malformed payload: its `type` discriminator is none of the
declared variants. -/
def unknownPayload : Json := .obj [("type", .str "unknown")]

/-- A well-formed `Trade` payload arriving after the malformed one. -/
def validTradePayload : Json :=
  .obj [("type", .str "Trade"), ("symbol", .str "BTCUSD"), ("price", .num 50000),
        ("quantity", .num 1), ("side", .str "Buy"),
        ("timestamp", .str "2026-01-01T00:00:00Z"), ("trade_id", .str "42")]

/-- The message the valid payload decodes to. -/
def validTradeMessage : MarketDataMessage :=
  .Trade { symbol := "BTCUSD", price := 50000, quantity := 1, side := .Buy,
           timestamp := "2026-01-01T00:00:00Z", trade_id := "42" }

/-- C6: decoding is total — every payload yields exactly one message or a
reported failure; the discriminator `unknown` is a failure; and a decode
failure does not end the read loop: with the malformed payload followed
by a valid one on the same stream, the valid message is still decoded and
published. -/
theorem C6_decode_failure_is_local (payload : Json) :
    ((∃ msg, decodeMessage payload = .ok msg) ∨
      (∃ e, decodeMessage payload = .error e)) ∧
    (∃ e, decodeMessage unknownPayload = .error e) ∧
    processFrames [.text unknownPayload, .text validTradePayload]
      = [validTradeMessage] := by
  refine ⟨?_, ⟨_, rfl⟩, rfl⟩
  match h : decodeMessage payload with
  | .ok m => exact .inl ⟨m, rfl⟩
  | .error e => exact .inr ⟨e, rfl⟩

/-- C3's failing input: a fresh client whose upstream connect fails.  The
claim (and spec §4.4) say the failed `start` leaves the session Idle with
`is_running()` false; the code sets the running flag before connecting
and never clears it on the error path, so after the `ConnectionError`
return `is_running()` is true (and any retry of `start()` would be a
no-op).  This theorem evaluates the code at that input, exhibiting the
divergence. -/
theorem C3_failed_connect_leaves_flag_set :
    (MarketDataClient.new "ws://localhost:8080" 1000).is_running = false ∧
    ((MarketDataClient.new "ws://localhost:8080" 1000).start
        { connectFailure := some "Connection refused (os error 111)",
          sendFailure := none }).result
      = .error (.connection "Connection refused (os error 111)") ∧
    ((MarketDataClient.new "ws://localhost:8080" 1000).start
        { connectFailure := some "Connection refused (os error 111)",
          sendFailure := none }).client.is_running = true :=
  ⟨rfl, rfl, rfl⟩

/-- The early-return branch of `start`: with the flag already set, the
call is a warning and `Ok`, with no connection attempt and no send. -/
theorem start_of_running (c : MarketDataClient) (env : StartEnv)
    (h : c.running = true) :
    c.start env
      = { client := c, result := .ok (), connectAttempts := 0, sent := [] } := by
  unfold MarketDataClient.start
  rw [h]
  simp

/-- Every branch of `start` leaves the running flag set (the early
return keeps the already-set flag; the other branches set it first). -/
theorem start_client_running (c : MarketDataClient) (env : StartEnv) :
    (c.start env).client.running = true := by
  unfold MarketDataClient.start
  by_cases h0 : c.running
  · simp [h0]
  · simp [h0]
    cases env.connectFailure <;> cases env.sendFailure <;> simp

/-- C7: when the running flag is set, `start` returns `Ok` at once —
state unchanged, no connection attempt, nothing sent; and whatever the
first call did, an immediately following second `start` performs no
connection attempt (every branch of a first call leaves the flag set). -/
theorem C7_start_idempotent (c : MarketDataClient) (e1 e2 : StartEnv)
    (h : c.is_running = true) :
    c.start e1 = { client := c, result := .ok (), connectAttempts := 0, sent := [] } ∧
    (∀ c0 : MarketDataClient, ((c0.start e1).client.start e2).connectAttempts = 0) := by
  refine ⟨start_of_running c e1 (show c.running = true from h), fun c0 => ?_⟩
  rw [start_of_running ((c0.start e1).client) e2 (start_client_running c0 e1)]

/-- C7 witness: a concrete already-running client. -/
theorem C7_witness :
    ({ url := "ws://localhost:8080", buffer_size := 1000, running := true } :
        MarketDataClient).start { connectFailure := none, sendFailure := none }
      = { client := { url := "ws://localhost:8080", buffer_size := 1000, running := true },
          result := .ok (), connectAttempts := 0, sent := [] } ∧
    (∀ c0 : MarketDataClient,
      ((c0.start { connectFailure := none, sendFailure := none }).client.start
          { connectFailure := none, sendFailure := none }).connectAttempts = 0) :=
  C7_start_idempotent
    { url := "ws://localhost:8080", buffer_size := 1000, running := true }
    { connectFailure := none, sendFailure := none }
    { connectFailure := none, sendFailure := none } rfl

/-- C8 as stated is false: the channels of the subscription message are
not supplied by the caller.  The constructor's whole public input is the
URL and the buffer size; two clients built from entirely different caller
inputs send the identical hardcoded message, whose channels are the
constant `["trades", "quotes", "orderbook"]`. -/
theorem C8_counterexample :
    ((MarketDataClient.new "wss://feed.example/a" 8).start
        { connectFailure := none, sendFailure := none }).sent
      = ((MarketDataClient.new "wss://other.example/b" 4096).start
          { connectFailure := none, sendFailure := none }).sent ∧
    ((MarketDataClient.new "wss://feed.example/a" 8).start
        { connectFailure := none, sendFailure := none }).sent
      = [Json.obj [("type", Json.str "subscribe"),
          ("channels", Json.arr [.str "trades", .str "quotes", .str "orderbook"])]] :=
  ⟨rfl, rfl⟩

/-- C8 (amended): whenever the connect succeeds, `start` on a freshly
constructed client sends exactly one control message of shape
`type = "subscribe"`, `channels = [...]` — but the channels list is the
constant `["trades", "quotes", "orderbook"]` hardcoded in `start`, not a
caller-supplied parameter. -/
theorem C8_subscribe_shape (url : String) (buffer_size : Nat) (env : StartEnv)
    (h : env.connectFailure = none) :
    ((MarketDataClient.new url buffer_size).start env).sent = [subscribeMessage] ∧
    subscribeMessage.getField "type" = some (.str "subscribe") ∧
    subscribeMessage.getField "channels"
      = some (.arr [.str "trades", .str "quotes", .str "orderbook"]) := by
  refine ⟨?_, rfl, rfl⟩
  unfold MarketDataClient.start MarketDataClient.new
  simp [h]
  cases env.sendFailure <;> simp

/-- C8 witness: a concrete construction and a successful connect. -/
theorem C8_witness :
    ((MarketDataClient.new "ws://localhost:8080" 1000).start
        { connectFailure := none, sendFailure := none }).sent = [subscribeMessage] ∧
    subscribeMessage.getField "type" = some (.str "subscribe") ∧
    subscribeMessage.getField "channels"
      = some (.arr [.str "trades", .str "quotes", .str "orderbook"]) :=
  C8_subscribe_shape "ws://localhost:8080" 1000
    { connectFailure := none, sendFailure := none } rfl
